import Mathlib

/-
Verification of the task-execution engine of the rime repository.

The definitions below are a shallow embedding of `rime/core/taskgraph.py`
(classes `Task`, `Bailout`, `SerialTaskGraph`, `ExternalProcessTask`) and of
the exit-code classification in `rime/codes.py` (`CodeBase._ExecInternal`).

Modelling choices:
  * Python values flowing between tasks are modelled by the inductive `Value`.
  * Exceptions are modelled by `Exc`; `Exc.bailout` is the `Bailout` class,
    `Exc.stopIteration` is `StopIteration`, `Exc.runtimeError` is
    `RuntimeError`, `Exc.assertionError` is a failing `assert`.
  * A Python `Task` object is a `TaskObj`: its `CacheKey()` result (`key`,
    `none` meaning the Python `None`), its object identity (`tid`, Python
    `id()`), the response tree of its `Continue`/`Throw` methods (`start`,
    the value returned by the first `Continue(None)` call), and the
    behaviour of its `Close()` method (`closeExc`: `some e` when `Close`
    raises `e`, `none` when it returns normally).
  * An `Act` is one value returned by `Continue`/`Throw` together with the
    task's future behaviour: `branch`/`bare` carry the functions `onOk`
    (what the next `Continue(v)` call returns) and `onErr` (what the next
    `Throw(e)` call returns); `block` carries what the next `Continue(None)`
    call after `Wait()` returns; `ret`/`otherVal`/`raiseE` are terminal.
  * `SerialTaskGraph._Run` is the fuel-indexed interpreter
    `runTask`/`runAct`/`runChildren`; `none` means the fuel ran out.  The
    interpreter additionally records a trace of the scheduler's calls into
    the task objects (`Ev`), used to state once-per-task properties.
  * The dict `self.cache` is the association list `Cache`, keyed by the
    task's effective identity (`effKey`): Python's `Task.__eq__` compares
    cache keys when both are non-`None` and object identities otherwise.
    The dict value `None` (the in-progress sentinel) is `Option.none`, and a
    stored pair `(success, value-or-error)` is `some (Outcome…)`.
-/

inductive Value where
  | none
  | nat (n : Nat)
  | str (s : String)
  | list (vs : List Value)
  | pair (a b : Value)
  | procH (pid : Nat)

inductive Exc where
  | bailout (v : Value)
  | stopIteration
  | runtimeError (msg : String)
  | assertionError
  | userError (eid : Nat)

mutual
inductive TaskObj : Type where
  | mk (key : Option Nat) (tid : Nat) (start : Act) (closeExc : Option Exc)

inductive Act : Type where
  | branch (children : List TaskObj) (onOk : Value → Act) (onErr : Exc → Act)
  | bare (child : TaskObj) (onOk : Value → Act) (onErr : Exc → Act)
  | block (next : Act)
  | ret (v : Value)
  | otherVal (v : Value)
  | raiseE (e : Exc)
end

def TaskObj.key : TaskObj → Option Nat
  | .mk k _ _ _ => k

def TaskObj.tid : TaskObj → Nat
  | .mk _ i _ _ => i

def TaskObj.start : TaskObj → Act
  | .mk _ _ s _ => s

def TaskObj.closeExc : TaskObj → Option Exc
  | .mk _ _ _ c => c

/-- Effective dictionary identity of a task: `Task.__hash__`/`Task.__eq__`
use `CacheKey()` when it is not `None` and the object identity otherwise. -/
abbrev EffKey := Sum Nat Nat

def effKey (t : TaskObj) : EffKey :=
  match t.key with
  | some k => Sum.inl k
  | none => Sum.inr t.tid

/-- A resolved cache entry: Python's `(True, value)` or `(False, exc_info)`. -/
inductive Outcome where
  | ok (v : Value)
  | err (e : Exc)

/-- The dict `SerialTaskGraph.cache`; an entry `(k, Option.none)` is the
in-progress sentinel `self.cache[task] = None`. -/
abbrev Cache := List (EffKey × Option Outcome)

def lookupC : Cache → EffKey → Option (Option Outcome)
  | [], _ => Option.none
  | (k, e) :: rest, k' => if k = k' then some e else lookupC rest k'

def updateC : Cache → EffKey → Option Outcome → Cache
  | [], k', e' => [(k', e')]
  | (k, e) :: rest, k', e' =>
      if k = k' then (k, e') :: rest else (k, e) :: updateC rest k' e'

/-- Trace events: the scheduler's calls into a task object.  `enter i` marks
the scheduler entering the uncached body of `_Run` for the task with
identity `i` (just before `self.cache[task] = None`). -/
inductive Ev where
  | enter (tid : Nat)
  | callContinue (tid : Nat) (v : Value)
  | callThrow (tid : Nat) (e : Exc)
  | waitEv (tid : Nat)
  | closeEv (tid : Nat)

def toExcept : Outcome → Except Exc Value
  | .ok v => .ok v
  | .err e => .error e

/-- Combined effect of taskgraph.py lines 310-322 on the task's cache entry:
the loop stores the body's outcome `o`, then `task.Close()` runs; when
`Close` raises `e` the stored outcome is overwritten by `(False, e)`,
otherwise it is left as `o`. -/
def closedOutcome (ce : Option Exc) (o : Outcome) : Outcome :=
  match ce with
  | some e => Outcome.err e
  | Option.none => o

mutual
/-- Shallow embedding of `SerialTaskGraph._Run` (taskgraph.py lines 280-329),
with fuel.  Returns the value `_Run` returns or the exception it raises,
the cache after the call, and the trace of calls into task objects. -/
def runTask : Nat → Cache → TaskObj → Option (Except Exc Value × Cache × List Ev)
  | 0, _, _ => Option.none
  | n + 1, c, t =>
    match lookupC c (effKey t) with
    | some (some o) => some (toExcept o, c, [])
    | some Option.none =>
        some (.error (Exc.runtimeError "Cyclic task dependency found"), c, [])
    | Option.none =>
        match runAct n (updateC c (effKey t) Option.none) t.tid t.start with
        | Option.none => Option.none
        | some (o, c2, tr) =>
            some (toExcept (closedOutcome t.closeExc o),
              updateC c2 (effKey t) (some (closedOutcome t.closeExc o)),
              Ev.enter t.tid :: Ev.callContinue t.tid Value.none ::
                (tr ++ [Ev.closeEv t.tid]))
termination_by structural n c t => n

/-- One step of `_Run`'s `while True` loop: `act` is the result of the
`Continue`/`Throw` call just performed (with an exception raised by the call
modelled by `raiseE`); the `StopIteration` and `except Exception` handlers,
and the dispatch on `TaskBranch` / `Task` / `TaskBlock` / `_TaskRaise` /
`TaskReturn` / other values, follow taskgraph.py lines 284-318. -/
def runAct : Nat → Cache → Nat → Act → Option (Outcome × Cache × List Ev)
  | 0, _, _, _ => Option.none
  | n + 1, c, tid, act =>
    match act with
    | .ret v => some (.ok v, c, [])
    | .otherVal v => some (.ok v, c, [])
    | .raiseE Exc.stopIteration => some (.ok Value.none, c, [])
    | .raiseE e => some (.err e, c, [])
    | .block next =>
        match runAct n c tid next with
        | Option.none => Option.none
        | some (o, c2, tr) =>
            some (o, c2, Ev.waitEv tid :: Ev.callContinue tid Value.none :: tr)
    | .branch cs onOk onErr =>
        match runChildren n c cs with
        | Option.none => Option.none
        | some (.ok rs, c2, tr) =>
            match runAct n c2 tid (onOk (Value.list rs)) with
            | Option.none => Option.none
            | some (o, c3, tr2) =>
                some (o, c3, tr ++ Ev.callContinue tid (Value.list rs) :: tr2)
        | some (.error (Exc.bailout v), c2, tr) =>
            match runAct n c2 tid (onOk v) with
            | Option.none => Option.none
            | some (o, c3, tr2) =>
                some (o, c3, tr ++ Ev.callContinue tid v :: tr2)
        | some (.error e, c2, tr) =>
            match runAct n c2 tid (onErr e) with
            | Option.none => Option.none
            | some (o, c3, tr2) =>
                some (o, c3, tr ++ Ev.callThrow tid e :: tr2)
    | .bare child onOk onErr =>
        match runTask n c child with
        | Option.none => Option.none
        | some (.ok v, c2, tr) =>
            match runAct n c2 tid (onOk v) with
            | Option.none => Option.none
            | some (o, c3, tr2) =>
                some (o, c3, tr ++ Ev.callContinue tid v :: tr2)
        | some (.error (Exc.bailout v), c2, tr) =>
            match runAct n c2 tid (onOk v) with
            | Option.none => Option.none
            | some (o, c3, tr2) =>
                some (o, c3, tr ++ Ev.callContinue tid v :: tr2)
        | some (.error e, c2, tr) =>
            match runAct n c2 tid (onErr e) with
            | Option.none => Option.none
            | some (o, c3, tr2) =>
                some (o, c3, tr ++ Ev.callThrow tid e :: tr2)
termination_by structural n c tid act => n

/-- The list comprehension `[self._Run(subtask) for subtask in result.tasks]`
(taskgraph.py line 298): children run left to right; the first exception
aborts the comprehension, so later children are never visited. -/
def runChildren : Nat → Cache → List TaskObj →
    Option (Except Exc (List Value) × Cache × List Ev)
  | 0, _, _ => Option.none
  | _ + 1, c, [] => some (.ok [], c, [])
  | n + 1, c, t :: ts =>
      match runTask n c t with
      | Option.none => Option.none
      | some (.error e, c2, tr) => some (.error e, c2, tr)
      | some (.ok v, c2, tr) =>
          match runChildren n c2 ts with
          | Option.none => Option.none
          | some (.error e, c3, tr2) => some (.error e, c3, tr ++ tr2)
          | some (.ok vs, c3, tr2) => some (.ok (v :: vs), c3, tr ++ tr2)
termination_by structural n c ts => n
end

def isClose (tid : Nat) : Ev → Bool
  | .closeEv t => t == tid
  | _ => false

def isEnter (tid : Nat) : Ev → Bool
  | .enter t => t == tid
  | _ => false

/-- Number of `Close()` calls on tasks with identity `tid` in a trace. -/
def countClose (tid : Nat) (tr : List Ev) : Nat := tr.countP (isClose tid)

/-- Number of task bodies with identity `tid` entered by the scheduler. -/
def countEnter (tid : Nat) (tr : List Ev) : Nat := tr.countP (isEnter tid)

/-- Mutable state of an `ExternalProcessTask` (taskgraph.py lines 177-262):
`proc` is `self.proc` (`some pid` when a process handle is held),
`start_time` and `time` are the wall-clock attributes, `timer` records
whether `self.timer` holds a live timer. -/
structure EPState where
  proc : Option Nat
  start_time : Nat
  time : Nat
  timer : Bool

/-- A value an `ExternalProcessTask.Continue` call produces: `TaskBlock()` or
`TaskReturn(payload)`. -/
inductive EPSignal where
  | taskBlock
  | taskReturn (payload : Value)

/-- Embedding of `ExternalProcessTask._StartProcess`: records the start time,
stores the fresh process handle, and arms the timer iff a timeout was
given.  `now` is the current wall clock and `pid` the handle returned by
`subprocess.Popen`. -/
def startProcess (now pid : Nat) (timeout : Option Nat) (s : EPState) : EPState :=
  { s with start_time := now, proc := some pid, timer := timeout.isSome }

/-- Embedding of `ExternalProcessTask._EndProcess`: records the elapsed time,
cancels the timer, clears `self.proc`, and returns the bare process handle
(the Python method's `return proc`). -/
def endProcess (now : Nat) (s : EPState) : Value × EPState :=
  (match s.proc with
   | some p => Value.procH p
   | Option.none => Value.none,
   { s with time := now - s.start_time, timer := false, proc := Option.none })

/-- Embedding of `ExternalProcessTask._ContinueNonExclusive` (taskgraph.py
lines 210-217).  `exited` is the result of `self.Poll()`, i.e. whether
`self.proc.poll() is not None`. -/
def continueNonExclusive (now pid : Nat) (timeout : Option Nat) (exited : Bool)
    (s : EPState) : EPSignal × EPState :=
  match s.proc with
  | Option.none => (.taskBlock, startProcess now pid timeout s)
  | some _ =>
      if exited then
        let (v, s2) := endProcess now s
        (.taskReturn v, s2)
      else (.taskBlock, s)

/-- Payload that the specification claims the non-exclusive `TaskReturn`
carries.  Modelled from the spec: "Return is produced with the same
(process handle, elapsed time) payload"; kept for comparison with the
payload the code actually produces. -/
def specReturnPayload (p elapsed : Nat) : Value :=
  Value.pair (Value.procH p) (Value.nat elapsed)

/-- Execution statuses of `RunResult` (codes.py lines 12-25). -/
inductive RunStatus where
  | OK
  | NG
  | RE
  | TLE

/-- The value of `signal.SIGXCPU` on Linux, the platform the tool targets. -/
def SIGXCPU : Int := 24

/-- Exit-code classification in `CodeBase._ExecInternal`
(codes.py lines 179-188). -/
def classifyExitCode (code : Int) : RunStatus :=
  if code = 0 then .OK
  else if code = -SIGXCPU then .TLE
  else if code < 0 then .RE
  else .NG

/-- State of a `SerialTaskGraph` object: the result cache and the
`self.running` flag. -/
structure TGraph where
  cache : Cache
  running : Bool

/-- Embedding of `SerialTaskGraph.Run` (taskgraph.py lines 272-278):
`assert not self.running` (a failing assert is `Exc.assertionError` and
leaves the graph untouched), set `running` for the duration of the `_Run`
call, and reset it in the `finally` block whether `_Run` returned or
raised. -/
def RunG (n : Nat) (g : TGraph) (t : TaskObj) :
    Option (Except Exc Value × TGraph × List Ev) :=
  if g.running then some (.error Exc.assertionError, g, [])
  else
    let g1 : TGraph := { g with running := true }
    match runTask n g1.cache t with
    | Option.none => Option.none
    | some (r, c2, tr) => some (r, { cache := c2, running := false }, tr)

/-- Example child task: its first `Continue(None)` raises
`Bailout(Value.nat 42)`; `Close` returns normally. -/
def egA : TaskObj :=
  .mk Option.none 1 (.raiseE (Exc.bailout (Value.nat 42))) Option.none

/-- Example child task: returns `TaskReturn(Value.nat 7)` immediately. -/
def egB : TaskObj := .mk Option.none 2 (.ret (Value.nat 7)) Option.none

/-- Example parent task: its first `Continue(None)` returns
`TaskBranch([egA, egB])`; the next `Continue(v)` returns `TaskReturn(v)`
and the next `Throw(e)` re-raises `e`. -/
def egP : TaskObj :=
  .mk Option.none 0
    (.branch [egA, egB] (fun v => .ret v) (fun e => .raiseE e)) Option.none

/-- Example task that returns `TaskReturn(Value.nat 3)`; cache key 5. -/
def egK : TaskObj := .mk (some 5) 3 (.ret (Value.nat 3)) Option.none

/-- Second task object with the same cache key 5 but different identity and
different behaviour; used to show the cached outcome is returned without
running this object's body. -/
def egK2 : TaskObj := .mk (some 5) 4 (.ret (Value.nat 99)) Option.none

theorem lookupC_updateC_self (c : Cache) (k : EffKey) (e : Option Outcome) :
    lookupC (updateC c k e) k = some e := by
  induction c with
  | nil => simp [updateC, lookupC]
  | cons he rest ih =>
      obtain ⟨k0, e0⟩ := he
      by_cases hk : k0 = k
      · simp [updateC, hk, lookupC]
      · simp [updateC, hk, lookupC, ih]

/-- A trace is balanced when, for every task identity, the number of `Close`
calls equals the number of task bodies entered. -/
def balancedT (tr : List Ev) : Prop :=
  ∀ tid, countClose tid tr = countEnter tid tr

theorem balancedT_nil : balancedT [] := by
  intro tid
  simp [countClose, countEnter]

theorem balancedT_append {t1 t2 : List Ev} (h1 : balancedT t1)
    (h2 : balancedT t2) : balancedT (t1 ++ t2) := by
  intro tid
  simp [countClose, countEnter, List.countP_append] at *
  exact Nat.add_le_add (h1 tid).le (h2 tid).le |>.antisymm
    (Nat.add_le_add (h1 tid).ge (h2 tid).ge)

theorem balancedT_cont_cons {tr : List Ev} (i : Nat) (v : Value)
    (h : balancedT tr) : balancedT (Ev.callContinue i v :: tr) := by
  intro tid
  simpa [countClose, countEnter, List.countP_cons, isClose, isEnter] using h tid

theorem balancedT_throw_cons {tr : List Ev} (i : Nat) (e : Exc)
    (h : balancedT tr) : balancedT (Ev.callThrow i e :: tr) := by
  intro tid
  simpa [countClose, countEnter, List.countP_cons, isClose, isEnter] using h tid

theorem balancedT_wait_cons {tr : List Ev} (i : Nat)
    (h : balancedT tr) : balancedT (Ev.waitEv i :: tr) := by
  intro tid
  simpa [countClose, countEnter, List.countP_cons, isClose, isEnter] using h tid

theorem balancedT_wrap {tr : List Ev} (i : Nat) (v : Value)
    (h : balancedT tr) :
    balancedT (Ev.enter i :: Ev.callContinue i v :: (tr ++ [Ev.closeEv i])) := by
  intro tid
  have hh := h tid
  simp only [countClose, countEnter, List.countP_cons, List.countP_append,
    List.countP_nil, isClose, isEnter] at hh ⊢
  by_cases hi : i = tid
  · subst hi
    simp at hh ⊢
    omega
  · have hib : (i == tid) = false := by
      simp [hi]
    simp [hib] at hh ⊢
    omega

/-- In every terminating run, every task body entered by the scheduler gets
exactly one matching `Close()` call, namely the one at the end of its
`_Run` body; proved jointly for the three mutually recursive functions. -/
theorem balanced_aux : ∀ n : Nat,
    (∀ c t out, runTask n c t = some out → balancedT out.2.2) ∧
    (∀ c i a out, runAct n c i a = some out → balancedT out.2.2) ∧
    (∀ c ts out, runChildren n c ts = some out → balancedT out.2.2) := by
  intro n
  induction n with
  | zero =>
      refine ⟨?_, ?_, ?_⟩
      · intro c t out h
        simp [runTask] at h
      · intro c i a out h
        simp [runAct] at h
      · intro c ts out h
        simp [runChildren] at h
  | succ n ih =>
      obtain ⟨ihT, ihA, ihC⟩ := ih
      refine ⟨?_, ?_, ?_⟩
      · intro c t out h
        simp only [runTask] at h
        split at h
        · cases h
          exact balancedT_nil
        · cases h
          exact balancedT_nil
        · split at h
          · cases h
          · rename_i o c2 tr heq
            cases h
            exact balancedT_wrap _ _ (ihA _ _ _ _ heq)
      · intro c i a out h
        simp only [runAct] at h
        split at h
        · cases h; exact balancedT_nil
        · cases h; exact balancedT_nil
        · cases h; exact balancedT_nil
        · cases h; exact balancedT_nil
        · split at h
          · cases h
          · rename_i o c2 tr heq
            cases h
            exact balancedT_wait_cons _ (balancedT_cont_cons _ _ (ihA _ _ _ _ heq))
        · split at h
          · cases h
          · rename_i rs c2 tr heq
            split at h
            · cases h
            · rename_i o c3 tr2 heq2
              cases h
              exact balancedT_append (ihC _ _ _ heq)
                (balancedT_cont_cons _ _ (ihA _ _ _ _ heq2))
          · rename_i v c2 tr heq
            split at h
            · cases h
            · rename_i o c3 tr2 heq2
              cases h
              exact balancedT_append (ihC _ _ _ heq)
                (balancedT_cont_cons _ _ (ihA _ _ _ _ heq2))
          · rename_i e c2 tr hne heq
            split at h
            · cases h
            · rename_i o c3 tr2 heq2
              cases h
              exact balancedT_append (ihC _ _ _ heq)
                (balancedT_throw_cons _ _ (ihA _ _ _ _ heq2))
        · split at h
          · cases h
          · rename_i v c2 tr heq
            split at h
            · cases h
            · rename_i o c3 tr2 heq2
              cases h
              exact balancedT_append (ihT _ _ _ heq)
                (balancedT_cont_cons _ _ (ihA _ _ _ _ heq2))
          · rename_i v c2 tr heq
            split at h
            · cases h
            · rename_i o c3 tr2 heq2
              cases h
              exact balancedT_append (ihT _ _ _ heq)
                (balancedT_cont_cons _ _ (ihA _ _ _ _ heq2))
          · rename_i e c2 tr hne heq
            split at h
            · cases h
            · rename_i o c3 tr2 heq2
              cases h
              exact balancedT_append (ihT _ _ _ heq)
                (balancedT_throw_cons _ _ (ihA _ _ _ _ heq2))
      · intro c ts out h
        match ts with
        | [] =>
            simp only [runChildren] at h
            cases h
            exact balancedT_nil
        | t :: ts =>
            simp only [runChildren] at h
            split at h
            · cases h
            · rename_i e c2 tr heq
              cases h
              exact ihT _ _ _ heq
            · rename_i v c2 tr heq
              split at h
              · cases h
              · rename_i e c3 tr2 heq2
                cases h
                exact balancedT_append (ihT _ _ _ heq) (ihC _ _ _ heq2)
              · rename_i vs c3 tr2 heq2
                cases h
                exact balancedT_append (ihT _ _ _ heq) (ihC _ _ _ heq2)

/-- Additional example tasks used by witnesses: a cyclic pair sharing cache
key 7, a task whose `Close` raises, and a parent branching to two tasks
that share cache key 5. -/
def egCycC : TaskObj := .mk (some 7) 7 (.ret (Value.nat 0)) Option.none

def egCycP : TaskObj :=
  .mk (some 7) 6 (.branch [egCycC] (fun v => .ret v) (fun e => .raiseE e))
    Option.none

def egC : TaskObj := .mk Option.none 8 (.ret (Value.nat 1)) (some (Exc.userError 3))

def egQ : TaskObj :=
  .mk Option.none 9 (.branch [egK, egK2] (fun v => .ret v) (fun e => .raiseE e))
    Option.none

/-- After any terminating `_Run` call, running any task with the same
effective identity again returns the same result immediately: the cache
entry is already resolved (or the in-progress sentinel yields the same
cyclic-dependency error again), so no body and no `Close` runs and the
cache is unchanged. -/
theorem runTask_second_run {n : Nat} {c : Cache} {t : TaskObj}
    {r : Except Exc Value} {c2 : Cache} {tr : List Ev}
    (h : runTask n c t = some (r, c2, tr))
    {t2 : TaskObj} (hk : effKey t2 = effKey t) (m : Nat) :
    runTask (m + 1) c2 t2 = some (r, c2, []) := by
  match n with
  | 0 => simp [runTask] at h
  | n + 1 =>
    simp only [runTask] at h
    split at h
    · rename_i o heq
      cases h
      simp only [runTask, hk, heq]
    · rename_i heq
      cases h
      simp only [runTask, hk, heq]
    · rename_i heq
      split at h
      · cases h
      · rename_i o c3 tr3 heq2
        cases h
        simp only [runTask, hk, lookupC_updateC_self]

/-- In a successful children run, the i-th delivered result is the result of
running the i-th submitted child (in the cache state reached after its
earlier siblings), and the result list has one entry per child. -/
theorem runChildren_ok_pointwise : ∀ n c cs rs c2 tr,
    runChildren n c cs = some (.ok rs, c2, tr) →
    rs.length = cs.length ∧
    ∀ (i : Nat) (t0 : TaskObj), cs[i]? = some t0 →
      ∃ v m ci ci2 tri, rs[i]? = some v ∧
        runTask m ci t0 = some (.ok v, ci2, tri) := by
  intro n
  induction n with
  | zero =>
      intro c cs rs c2 tr h
      simp [runChildren] at h
  | succ n ih =>
      intro c cs rs c2 tr h
      match cs with
      | [] =>
          simp only [runChildren] at h
          cases h
          refine ⟨rfl, ?_⟩
          intro i t0 hi
          simp at hi
      | t :: ts =>
          simp only [runChildren] at h
          split at h
          · cases h
          · cases h
          · rename_i v c2' tr' heq
            split at h
            · cases h
            · cases h
            · rename_i vs c3 tr2 heq2
              cases h
              obtain ⟨hlen, hpt⟩ := ih _ _ _ _ _ heq2
              refine ⟨by simp [hlen], ?_⟩
              intro i t0 hi
              match i with
              | 0 =>
                  simp at hi
                  subst hi
                  exact ⟨v, n, c, c2', tr', by simp, heq⟩
              | i + 1 =>
                  simp only [List.getElem?_cons_succ] at hi ⊢
                  exact hpt i t0 hi

/-- C1: for a task whose `CacheKey()` is not `None` and whose key is not yet
in the cache, running it executes its `Continue`/`Throw` body and stores a
resolved (success, value-or-error) outcome under the key; a second run of
any task carrying the same key — within the same `SerialTaskGraph`
invocation, i.e. on the resulting cache — returns the stored value (or
re-raises the identical stored error) with an empty trace: no `Continue`,
`Throw` or `Close` call happens, so the body runs at most once. -/
theorem C1_cached_once {n : Nat} {c : Cache} {t : TaskObj} {k : Nat}
    {r : Except Exc Value} {c2 : Cache} {tr : List Ev}
    (hkey : t.key = some k)
    (habs : lookupC c (effKey t) = Option.none)
    (h : runTask n c t = some (r, c2, tr))
    {t2 : TaskObj} (hkey2 : t2.key = some k) (m : Nat) :
    (∃ o, lookupC c2 (effKey t) = some (some o) ∧ toExcept o = r) ∧
    runTask (m + 1) c2 t2 = some (r, c2, []) := by
  have hk2 : effKey t2 = effKey t := by
    simp [effKey, hkey, hkey2]
  refine ⟨?_, runTask_second_run h hk2 m⟩
  match n with
  | 0 => simp [runTask] at h
  | n + 1 =>
    simp only [runTask, habs] at h
    split at h
    · cases h
    · rename_i o c3 tr3 heq
      cases h
      exact ⟨closedOutcome t.closeExc o, lookupC_updateC_self _ _ _, rfl⟩

/-- Witness for C1 at the concrete tasks `egK` and `egK2`, both carrying
cache key 5: the first run resolves key 5 to the value 3, and the second
run returns the cached 3 — not `egK2`'s own return value 99 — with an
empty trace. -/
theorem C1_witness :
    egK.key = some 5 ∧ lookupC [] (effKey egK) = Option.none ∧
    runTask 2 [] egK =
      some (.ok (Value.nat 3), [(Sum.inl 5, some (Outcome.ok (Value.nat 3)))],
        [Ev.enter 3, Ev.callContinue 3 Value.none, Ev.closeEv 3]) ∧
    egK2.key = some 5 ∧
    ((∃ o, lookupC [(Sum.inl 5, some (Outcome.ok (Value.nat 3)))] (effKey egK) =
        some (some o) ∧ toExcept o = .ok (Value.nat 3)) ∧
      runTask 1 [(Sum.inl 5, some (Outcome.ok (Value.nat 3)))] egK2 =
        some (.ok (Value.nat 3),
          [(Sum.inl 5, some (Outcome.ok (Value.nat 3)))], [])) :=
  ⟨rfl, rfl, rfl, rfl,
   @C1_cached_once 2 [] egK 5 (.ok (Value.nat 3))
     [(Sum.inl 5, some (Outcome.ok (Value.nat 3)))]
     [Ev.enter 3, Ev.callContinue 3 Value.none, Ev.closeEv 3]
     rfl rfl rfl egK2 rfl 0⟩

/-- C2: when every child of a `TaskBranch` completes successfully, the
parent's next input is `Value.list rs` delivered through `Continue`, where
`rs` has exactly one entry per submitted child and its i-th entry is the
result of running the i-th submitted child — i.e. the delivered list is in
submission order (in this serial driver children are executed in
submission order, so completion order cannot differ from it). -/
theorem C2_branch_submission_order {n : Nat} {c : Cache} {cs : List TaskObj}
    {rs : List Value} {c2 : Cache} {tr : List Ev} (tid : Nat)
    (onOk : Value → Act) (onErr : Exc → Act)
    (h : runChildren n c cs = some (.ok rs, c2, tr)) :
    runAct (n + 1) c tid (.branch cs onOk onErr) =
      (match runAct n c2 tid (onOk (Value.list rs)) with
       | Option.none => Option.none
       | some (o, c3, tr2) =>
           some (o, c3, tr ++ Ev.callContinue tid (Value.list rs) :: tr2)) ∧
    rs.length = cs.length ∧
    (∀ (i : Nat) (t0 : TaskObj), cs[i]? = some t0 →
      ∃ v m ci ci2 tri, rs[i]? = some v ∧
        runTask m ci t0 = some (.ok v, ci2, tri)) := by
  refine ⟨?_, runChildren_ok_pointwise n c cs rs c2 tr h⟩
  simp only [runAct, h]

/-- Witness for C2: branching to `[egK, egK2]` (which share cache key 5)
resumes the parent with `Continue(Value.list [3, 3])`: the second entry is
the first child's cached result, delivered at the second position. -/
theorem C2_witness :
    runChildren 5 [] [egK, egK2] =
      some (.ok [Value.nat 3, Value.nat 3],
        [(Sum.inl 5, some (Outcome.ok (Value.nat 3)))],
        [Ev.enter 3, Ev.callContinue 3 Value.none, Ev.closeEv 3]) ∧
    (runAct 6 [] 9 (.branch [egK, egK2] (fun v => .ret v) (fun e => .raiseE e)) =
      some (.ok (Value.list [Value.nat 3, Value.nat 3]),
        [(Sum.inl 5, some (Outcome.ok (Value.nat 3)))],
        [Ev.enter 3, Ev.callContinue 3 Value.none, Ev.closeEv 3,
         Ev.callContinue 9 (Value.list [Value.nat 3, Value.nat 3])]) ∧
     ([Value.nat 3, Value.nat 3] : List Value).length =
       ([egK, egK2] : List TaskObj).length ∧
     (∀ (i : Nat) (t0 : TaskObj), ([egK, egK2] : List TaskObj)[i]? = some t0 →
       ∃ v m ci ci2 tri, ([Value.nat 3, Value.nat 3] : List Value)[i]? = some v ∧
         runTask m ci t0 = some (.ok v, ci2, tri))) :=
  ⟨rfl,
   @C2_branch_submission_order 5 [] [egK, egK2] [Value.nat 3, Value.nat 3]
     [(Sum.inl 5, some (Outcome.ok (Value.nat 3)))]
     [Ev.enter 3, Ev.callContinue 3 Value.none, Ev.closeEv 3]
     9 (fun v => .ret v) (fun e => .raiseE e) rfl⟩

/-- C3: running a task whose effective cache key currently holds the
in-progress sentinel (`self.cache[task] = None`, i.e. the key is being
computed higher up the same call stack, a dependency cycle) immediately
returns the cyclic-dependency `RuntimeError`: no recursion happens, no
`Continue`/`Throw`/`Close` is called (empty trace), and the cache is
unchanged.  The sentinel is installed before the body is driven: the
uncached arm of `runTask` runs the body against
`updateC c (effKey t) Option.none`. -/
theorem C3_cyclic_error {c : Cache} {t : TaskObj}
    (h : lookupC c (effKey t) = some Option.none) (n : Nat) :
    runTask (n + 1) c t =
      some (.error (Exc.runtimeError "Cyclic task dependency found"), c, []) := by
  simp only [runTask, h]

/-- Witness for C3: the sentinel lookup on `egCycC` (key 7) yields the
cyclic-dependency error, and the end-to-end run of `egCycP` — whose branch
child `egCycC` shares its cache key 7 — surfaces that `RuntimeError` as the
root result after being delivered to the parent via `Throw`. -/
theorem C3_witness :
    lookupC [(Sum.inl 7, Option.none)] (effKey egCycC) = some Option.none ∧
    runTask 3 [(Sum.inl 7, Option.none)] egCycC =
      some (.error (Exc.runtimeError "Cyclic task dependency found"),
        [(Sum.inl 7, Option.none)], []) ∧
    runTask 10 [] egCycP =
      some (.error (Exc.runtimeError "Cyclic task dependency found"),
        [(Sum.inl 7,
          some (Outcome.err (Exc.runtimeError "Cyclic task dependency found")))],
        [Ev.enter 6, Ev.callContinue 6 Value.none,
         Ev.callThrow 6 (Exc.runtimeError "Cyclic task dependency found"),
         Ev.closeEv 6]) :=
  ⟨rfl, @C3_cyclic_error [(Sum.inl 7, Option.none)] egCycC rfl 2, rfl⟩

/-- C4: if the children run of an active `TaskBranch` ends with a `Bailout`
(a child's execution raised Abort), the parent is resumed through its
normal `Continue` entry point — not `Throw` — and receives the Bailout's
carried value as the entire branch's aggregate result, delivered as-is,
exactly as a normally returned branch value would be: the continuation
applied is `onOk v` (the task's `Continue(value)` response) and the
recorded scheduler call is `Ev.callContinue tid v`. -/
theorem C4_abort_value_to_parent {n : Nat} {c : Cache} {cs : List TaskObj}
    {v : Value} {c2 : Cache} {tr : List Ev} (tid : Nat)
    (onOk : Value → Act) (onErr : Exc → Act)
    (h : runChildren n c cs = some (.error (Exc.bailout v), c2, tr)) :
    runAct (n + 1) c tid (.branch cs onOk onErr) =
      (match runAct n c2 tid (onOk v) with
       | Option.none => Option.none
       | some (o, c3, tr2) =>
           some (o, c3, tr ++ Ev.callContinue tid v :: tr2)) := by
  simp only [runAct, h]

/-- Witness for C4: child `egA` raises `Bailout(42)`; the branch's parent is
resumed with `Continue(42)` and its own `onOk` answer makes 42 the branch
result. -/
theorem C4_witness :
    runChildren 5 [] [egA] =
      some (.error (Exc.bailout (Value.nat 42)),
        [(Sum.inr 1, some (Outcome.err (Exc.bailout (Value.nat 42))))],
        [Ev.enter 1, Ev.callContinue 1 Value.none, Ev.closeEv 1]) ∧
    runAct 6 [] 0 (.branch [egA] (fun v => .ret v) (fun e => .raiseE e)) =
      some (.ok (Value.nat 42),
        [(Sum.inr 1, some (Outcome.err (Exc.bailout (Value.nat 42))))],
        [Ev.enter 1, Ev.callContinue 1 Value.none, Ev.closeEv 1,
         Ev.callContinue 0 (Value.nat 42)]) :=
  ⟨rfl,
   @C4_abort_value_to_parent 5 [] [egA] (Value.nat 42)
     [(Sum.inr 1, some (Outcome.err (Exc.bailout (Value.nat 42))))]
     [Ev.enter 1, Ev.callContinue 1 Value.none, Ev.closeEv 1]
     0 (fun v => .ret v) (fun e => .raiseE e) rfl⟩

/-- C5 counterexample: in `runTask 10 [] egP`, task `egB` (identity 2) is
submitted as the second child of `egP`'s `TaskBranch`, but its sibling
`egA` raises `Bailout` first, so the children list comprehension aborts
before reaching `egB`: the complete trace of the run contains no event for
identity 2 at all — in particular zero `Close` calls, not the exactly one
the claim asserts for every child of every Branch. -/
theorem C5_counterexample :
    runTask 10 [] egP =
      some (.ok (Value.nat 42),
        [(Sum.inr 0, some (Outcome.ok (Value.nat 42))),
         (Sum.inr 1, some (Outcome.err (Exc.bailout (Value.nat 42))))],
        [Ev.enter 0, Ev.callContinue 0 Value.none, Ev.enter 1,
         Ev.callContinue 1 Value.none, Ev.closeEv 1,
         Ev.callContinue 0 (Value.nat 42), Ev.closeEv 0]) ∧
    countClose 2
      [Ev.enter 0, Ev.callContinue 0 Value.none, Ev.enter 1,
       Ev.callContinue 1 Value.none, Ev.closeEv 1,
       Ev.callContinue 0 (Value.nat 42), Ev.closeEv 0] = 0 ∧
    egB.tid = 2 :=
  ⟨rfl, rfl, rfl⟩

/-- C5 amended: `Close()` is invoked exactly once for every task body the
scheduler actually enters — in every terminating run, for every task
identity, the number of `Close` calls in the trace equals the number of
entered bodies.  A sibling submitted after a child that raised Abort is
never started, so it gets neither an enter nor a `Close`; siblings started
before it are closed exactly once. -/
theorem C5_close_once_per_entered_body {n : Nat} {c : Cache} {t : TaskObj}
    {out : Except Exc Value × Cache × List Ev}
    (h : runTask n c t = some out) (tid : Nat) :
    countClose tid out.2.2 = countEnter tid out.2.2 :=
  (balanced_aux n).1 c t out h tid

/-- Witness for the amended C5 on a concrete run of `egB` alone: its body is
entered once and closed once. -/
theorem C5_amended_witness :
    runTask 3 [] egB =
      some (.ok (Value.nat 7), [(Sum.inr 2, some (Outcome.ok (Value.nat 7)))],
        [Ev.enter 2, Ev.callContinue 2 Value.none, Ev.closeEv 2]) ∧
    countClose 2 [Ev.enter 2, Ev.callContinue 2 Value.none, Ev.closeEv 2] =
      countEnter 2 [Ev.enter 2, Ev.callContinue 2 Value.none, Ev.closeEv 2] :=
  ⟨rfl,
   @C5_close_once_per_entered_body 3 [] egB
     (.ok (Value.nat 7), [(Sum.inr 2, some (Outcome.ok (Value.nat 7)))],
      [Ev.enter 2, Ev.callContinue 2 Value.none, Ev.closeEv 2]) rfl 2⟩

/-- C6: the outcome `o` computed by the `while` loop is stored and returned
only when `Close()` returns normally; when `Close()` raises `e`, both the
stored cache entry and the caller-visible result become the error `e`,
replacing `o` whatever it was. -/
theorem C6_close_override {n : Nat} {c : Cache} {t : TaskObj} {o : Outcome}
    {c2 : Cache} {tr : List Ev}
    (habs : lookupC c (effKey t) = Option.none)
    (hb : runAct n (updateC c (effKey t) Option.none) t.tid t.start =
      some (o, c2, tr)) :
    (∀ e, t.closeExc = some e →
      runTask (n + 1) c t =
        some (.error e, updateC c2 (effKey t) (some (Outcome.err e)),
          Ev.enter t.tid :: Ev.callContinue t.tid Value.none ::
            (tr ++ [Ev.closeEv t.tid]))) ∧
    (t.closeExc = Option.none →
      runTask (n + 1) c t =
        some (toExcept o, updateC c2 (effKey t) (some o),
          Ev.enter t.tid :: Ev.callContinue t.tid Value.none ::
            (tr ++ [Ev.closeEv t.tid]))) := by
  constructor
  · intro e he
    simp only [runTask, habs, hb, closedOutcome, he, toExcept]
  · intro he
    simp only [runTask, habs, hb, closedOutcome, he]

/-- Witness for C6: `egC`'s body returns the value 1 successfully, but its
`Close()` raises `userError 3`, and that error is what gets stored and
surfaced to the caller. -/
theorem C6_witness :
    lookupC [] (effKey egC) = Option.none ∧
    runAct 1 [(Sum.inr 8, Option.none)] 8 (.ret (Value.nat 1)) =
      some (.ok (Value.nat 1), [(Sum.inr 8, Option.none)], []) ∧
    egC.closeExc = some (Exc.userError 3) ∧
    runTask 2 [] egC =
      some (.error (Exc.userError 3),
        [(Sum.inr 8, some (Outcome.err (Exc.userError 3)))],
        [Ev.enter 8, Ev.callContinue 8 Value.none, Ev.closeEv 8]) :=
  ⟨rfl, rfl, rfl,
   (@C6_close_override 1 [] egC (.ok (Value.nat 1))
       [(Sum.inr 8, Option.none)] [] rfl rfl).1 (Exc.userError 3) rfl⟩

/-- C7 counterexample: at a concrete exited-process `Continue` call, the
`TaskReturn` payload is the bare process handle (`_EndProcess` ends with
`return proc`), not the (process handle, elapsed time) pair the claim
describes; the elapsed time is stored in the task's `time` attribute
instead. -/
theorem C7_counterexample :
    continueNonExclusive 10 99 Option.none true
        { proc := some 5, start_time := 3, time := 0, timer := false } =
      (.taskReturn (Value.procH 5),
       { proc := Option.none, start_time := 3, time := 7, timer := false }) ∧
    Value.procH 5 ≠ specReturnPayload 5 7 :=
  ⟨rfl, fun hcontra => Value.noConfusion hcontra⟩

/-- C7 amended: for a non-exclusive `ExternalProcessTask`, the first
`Continue` call starts the process and returns `TaskBlock`; every
subsequent call returns `TaskBlock` while `Poll` reports the process has
not exited; once `Poll` reports exit, `Continue` returns `TaskReturn`
carrying the bare process handle, with the elapsed wall-clock time stored
in the task's `time` attribute. -/
theorem C7_nonexclusive_protocol (now pid : Nat) (timeout : Option Nat)
    (exited : Bool) (s : EPState) :
    (s.proc = Option.none →
      continueNonExclusive now pid timeout exited s =
        (.taskBlock,
         { s with start_time := now, proc := some pid,
                  timer := timeout.isSome })) ∧
    (∀ p, s.proc = some p → exited = false →
      continueNonExclusive now pid timeout exited s = (.taskBlock, s)) ∧
    (∀ p, s.proc = some p → exited = true →
      continueNonExclusive now pid timeout exited s =
        (.taskReturn (Value.procH p),
         { s with time := now - s.start_time, timer := false,
                  proc := Option.none })) := by
  refine ⟨?_, ?_, ?_⟩
  · intro h
    simp [continueNonExclusive, h, startProcess]
  · intro p h hex
    subst hex
    simp [continueNonExclusive, h]
  · intro p h hex
    subst hex
    simp [continueNonExclusive, h, endProcess]

/-- Witness for the amended C7: a fresh task blocks and starts pid 5 with a
live timer; while not exited it blocks leaving the state unchanged; once
exited it returns the handle 5 and records elapsed time 10 - 3 = 7. -/
theorem C7_witness :
    (continueNonExclusive 3 5 (some 2) false
        { proc := Option.none, start_time := 0, time := 0, timer := false } =
      (.taskBlock, { proc := some 5, start_time := 3, time := 0, timer := true })) ∧
    (continueNonExclusive 6 9 (some 2) false
        { proc := some 5, start_time := 3, time := 0, timer := true } =
      (.taskBlock, { proc := some 5, start_time := 3, time := 0, timer := true })) ∧
    (continueNonExclusive 10 9 (some 2) true
        { proc := some 5, start_time := 3, time := 0, timer := true } =
      (.taskReturn (Value.procH 5),
       { proc := Option.none, start_time := 3, time := 7, timer := false })) :=
  ⟨(C7_nonexclusive_protocol 3 5 (some 2) false
      { proc := Option.none, start_time := 0, time := 0, timer := false }).1 rfl,
   (C7_nonexclusive_protocol 6 9 (some 2) false
      { proc := some 5, start_time := 3, time := 0, timer := true }).2.1 5 rfl rfl,
   (C7_nonexclusive_protocol 10 9 (some 2) true
      { proc := some 5, start_time := 3, time := 0, timer := true }).2.2 5 rfl rfl⟩

/-- C8: the caller-side exit-code classification of `CodeBase._ExecInternal`
maps exit code 0 to OK, code -SIGXCPU to TLE, any other negative code to
RE, and any other positive code to NG. -/
theorem C8_exit_code_classification (code : Int) :
    (code = 0 → classifyExitCode code = .OK) ∧
    (code = -SIGXCPU → classifyExitCode code = .TLE) ∧
    (code < 0 → code ≠ -SIGXCPU → classifyExitCode code = .RE) ∧
    (0 < code → classifyExitCode code = .NG) := by
  refine ⟨?_, ?_, ?_, ?_⟩
  · intro h
    subst h
    rfl
  · intro h
    subst h
    rfl
  · intro h1 h2
    unfold classifyExitCode
    rw [if_neg (by omega), if_neg h2, if_pos h1]
  · intro h
    have h2 : code ≠ -SIGXCPU := by
      simp only [SIGXCPU]
      omega
    unfold classifyExitCode
    rw [if_neg (by omega), if_neg h2, if_neg (by omega)]

/-- Witness for C8 at the four representative exit codes 0, -SIGXCPU, -7
and 17. -/
theorem C8_witness :
    classifyExitCode 0 = .OK ∧ classifyExitCode (-SIGXCPU) = .TLE ∧
    classifyExitCode (-7) = .RE ∧ classifyExitCode 17 = .NG :=
  ⟨(C8_exit_code_classification 0).1 rfl,
   (C8_exit_code_classification (-SIGXCPU)).2.1 rfl,
   (C8_exit_code_classification (-7)).2.2.1 (by decide) (by decide),
   (C8_exit_code_classification 17).2.2.2 (by decide)⟩

/-- C9: the two undocumented result shapes accepted by the scheduler:
(a) a bare `Task` returned from `Continue`/`Throw` is driven like a
single-child branch whose result is fed back to the parent's next
`Continue` directly — the delivered value is `v` itself, not
`Value.list [v]`; (b) any other value that is not a `TaskBranch`,
`TaskReturn`, `TaskBlock` or `_TaskRaise` terminates the task exactly like
a successful `TaskReturn` of that value. -/
theorem C9_bare_task_and_other_value (n : Nat) (c : Cache) (tid : Nat) :
    (∀ child onOk onErr v c2 tr,
      runTask n c child = some (.ok v, c2, tr) →
      runAct (n + 1) c tid (.bare child onOk onErr) =
        (match runAct n c2 tid (onOk v) with
         | Option.none => Option.none
         | some (o, c3, tr2) =>
             some (o, c3, tr ++ Ev.callContinue tid v :: tr2))) ∧
    (∀ v, runAct (n + 1) c tid (.otherVal v) = runAct (n + 1) c tid (.ret v)) := by
  constructor
  · intro child onOk onErr v c2 tr h
    simp only [runAct, h]
  · intro v
    simp only [runAct]

/-- Witness for C9: returning the bare task `egB` resumes the parent with
`Continue(Value.nat 7)` — the child's result itself, not a one-element
list — and an unrecognized value 5 terminates exactly like
`TaskReturn(5)`. -/
theorem C9_witness :
    runTask 2 [] egB =
      some (.ok (Value.nat 7), [(Sum.inr 2, some (Outcome.ok (Value.nat 7)))],
        [Ev.enter 2, Ev.callContinue 2 Value.none, Ev.closeEv 2]) ∧
    runAct 3 [] 0 (.bare egB (fun v => .ret v) (fun e => .raiseE e)) =
      some (.ok (Value.nat 7), [(Sum.inr 2, some (Outcome.ok (Value.nat 7)))],
        [Ev.enter 2, Ev.callContinue 2 Value.none, Ev.closeEv 2,
         Ev.callContinue 0 (Value.nat 7)]) ∧
    runAct 1 [] 0 (.otherVal (Value.nat 5)) = runAct 1 [] 0 (.ret (Value.nat 5)) :=
  ⟨rfl,
   (C9_bare_task_and_other_value 2 [] 0).1 egB (fun v => .ret v)
     (fun e => .raiseE e) (Value.nat 7)
     [(Sum.inr 2, some (Outcome.ok (Value.nat 7)))]
     [Ev.enter 2, Ev.callContinue 2 Value.none, Ev.closeEv 2] rfl,
   (C9_bare_task_and_other_value 0 [] 0).2 (Value.nat 5)⟩

/-- C10: `SerialTaskGraph.Run` is non-reentrant: when `running` is already
true the call fails the assertion and leaves the graph (and its cache)
untouched; when `running` is false the call drives `_Run` on the graph's
cache with the flag set for the duration — any `Run` on the in-flight
graph fails the assertion — and the returned graph has `running` reset to
false whether the root outcome is a value or an exception. -/
theorem C10_run_nonreentrant (n : Nat) (g : TGraph) (t : TaskObj) :
    (g.running = true → RunG n g t = some (.error Exc.assertionError, g, [])) ∧
    (g.running = false → ∀ r c2 tr, runTask n g.cache t = some (r, c2, tr) →
      RunG n g t = some (r, { cache := c2, running := false }, tr)) ∧
    (∀ m, RunG m { g with running := true } t =
      some (.error Exc.assertionError, { g with running := true }, [])) := by
  refine ⟨?_, ?_, ?_⟩
  · intro h
    simp [RunG, h]
  · intro h r c2 tr hrun
    simp [RunG, h, hrun]
  · intro m
    simp [RunG]

/-- Witness for C10: a graph with `running = true` fails the assertion; with
`running = false` the value run of `egB` and the erroring run of `egC`
both come back with `running = false`. -/
theorem C10_witness :
    (RunG 3 { cache := [], running := true } egB =
      some (.error Exc.assertionError, { cache := [], running := true }, [])) ∧
    (RunG 3 { cache := [], running := false } egB =
      some (.ok (Value.nat 7),
        { cache := [(Sum.inr 2, some (Outcome.ok (Value.nat 7)))],
          running := false },
        [Ev.enter 2, Ev.callContinue 2 Value.none, Ev.closeEv 2])) ∧
    (RunG 2 { cache := [], running := false } egC =
      some (.error (Exc.userError 3),
        { cache := [(Sum.inr 8, some (Outcome.err (Exc.userError 3)))],
          running := false },
        [Ev.enter 8, Ev.callContinue 8 Value.none, Ev.closeEv 8])) :=
  ⟨(C10_run_nonreentrant 3 { cache := [], running := true } egB).1 rfl,
   (C10_run_nonreentrant 3 { cache := [], running := false } egB).2.1 rfl
     (.ok (Value.nat 7)) [(Sum.inr 2, some (Outcome.ok (Value.nat 7)))]
     [Ev.enter 2, Ev.callContinue 2 Value.none, Ev.closeEv 2] rfl,
   (C10_run_nonreentrant 2 { cache := [], running := false } egC).2.1 rfl
     (.error (Exc.userError 3)) [(Sum.inr 8, some (Outcome.err (Exc.userError 3)))]
     [Ev.enter 8, Ev.callContinue 8 Value.none, Ev.closeEv 8] rfl⟩
